import Mathlib

/-!
Verification of the InvokeX desktop utility (app_installer.py, create_icon.py)
against its natural-language specification.

The Python program is shallowly embedded: pure fragments become Lean
functions, interactions with the operating system (file existence checks,
registry reads, subprocess exit codes and outputs, dialog answers) are
passed in explicitly through environment records, and each subprocess call
that may raise is modelled with an Option where none stands for a raised
exception that the surrounding try/except swallows.
-/

namespace InvokeX

/-! ## String helpers mirroring the Python formatting primitives -/

/-- Whether the list starts with the given pattern (character by character). -/
def beginsWith : List Char → List Char → Bool
  | [], _ => true
  | _ :: _, [] => false
  | p :: ps, c :: cs => p = c && beginsWith ps cs

/-- Whether the pattern occurs contiguously anywhere inside the list. -/
def hasSubList (pat : List Char) : List Char → Bool
  | [] => pat.isEmpty
  | c :: cs => beginsWith pat (c :: cs) || hasSubList pat cs

/-- Python membership test: pat in s (substring containment). -/
def strHas (s pat : String) : Bool :=
  hasSubList pat.toList s.toList

/-- Python str.startswith on strings. -/
def strBegins (s pat : String) : Bool :=
  beginsWith pat.toList s.toList

/-- Python format spec center alignment of width w: extra padding goes to
the right, matching the caret alignment used in the f-string of
log_to_terminal. -/
def pyCenter (w : Nat) (s : String) : String :=
  if w ≤ s.length then s
  else
    let pad := w - s.length
    let left := pad / 2
    String.mk (List.replicate left ' ') ++ s ++ String.mk (List.replicate (pad - left) ' ')

/-- Python format spec left alignment of a string to width w, as in the
detailed file-log line of log_to_terminal. -/
def pyLjust (w : Nat) (s : String) : String :=
  s ++ String.mk (List.replicate (w - s.length) ' ')

/-! ## log_to_terminal (app_installer.py lines 617-677)

The method builds one line for the in-window terminal widget and one call
to the Python logging module.  We model the terminal insertion as the
string inserted at the end of the widget and the file side as a
constructor of FileLogCall recording which logger method receives which
payload. -/

/-- A call to the file logger: which logging method is invoked and with
which string. -/
inductive FileLogCall where
  | toError (payload : String)
  | toWarning (payload : String)
  | toInfo (payload : String)
  | toDebug (payload : String)
deriving DecidableEq

/-- The logging method a FileLogCall is routed to, forgetting the payload. -/
inductive LogDest where
  | error
  | warning
  | info
  | debug
deriving DecidableEq

/-- Destination of a file-log call. -/
def FileLogCall.dest : FileLogCall → LogDest
  | .toError _ => .error
  | .toWarning _ => .warning
  | .toInfo _ => .info
  | .toDebug _ => .debug

/-- Payload of a file-log call. -/
def FileLogCall.payload : FileLogCall → String
  | .toError s => s
  | .toWarning s => s
  | .toInfo s => s
  | .toDebug s => s

/-- Embedding of log_to_terminal.  The current wall-clock strings are
explicit arguments (timestamp is the HH:MM:SS string, dateStamp the
YYYY-MM-DD string).  The first component is the string inserted at the
end of the terminal widget; the second is the call made on the logger. -/
def logToTerminal (message level timestamp dateStamp : String) : String × FileLogCall :=
  let levelFormatted := "[" ++ pyCenter 7 level.toUpper ++ "]"
  let logEntry := "[" ++ timestamp ++ "] " ++ levelFormatted ++ " " ++ message ++ "\n"
  let detailedMessage :=
    dateStamp ++ " " ++ timestamp ++ " | " ++ pyLjust 7 level.toUpper ++ " | " ++ message
  let fileCall : FileLogCall :=
    if level = "ERROR" then .toError detailedMessage
    else if level = "WARNING" then .toWarning detailedMessage
    else if level = "SUCCESS" then .toInfo ("SUCCESS | " ++ detailedMessage)
    else if level = "DEBUG" then .toDebug detailedMessage
    else .toInfo detailedMessage
  (logEntry, fileCall)

/-- Level routing as the specification sentence words it: ERROR to
logger.error, WARNING to logger.warning, DEBUG to logger.debug, SUCCESS
and all other levels to logger.info. -/
def specLevelDest (level : String) : LogDest :=
  if level = "ERROR" then .error
  else if level = "WARNING" then .warning
  else if level = "DEBUG" then .debug
  else .info

/-! ## Buttons of the main window (create_apps_tab, create_tweaks_tab,
create_terminal_window)

Every Button record below is one tk.Button created at startup in the main
InvokeX window, with the handler the widget's command is wired to. -/

/-- The handler a main-window button invokes when clicked, one constructor
per distinct callback appearing in the widget construction code. -/
inductive Handler where
  | runPowerShellCommand (cmd : String)
  | installIppyTray
  | downloadAndInstallMsi (url : String)
  | runCttWinutil
  | downloadAndInstallExe (url : String) (appName : String)
  | openUrl (url : String)
  | viewPowerLogs
  | removeShutdownFromStartupSmart
  | restoreShutdownOptions
  | checkGpoStatus
  | setChromeAsDefault
  | resetDefaultBrowser
  | checkCurrentDefaultBrowser
  | configurePowerManagement
  | resetPowerManagement
  | checkPowerStatus
  | restartSystem10s
  | shutdownSystem
  | preventUserCreation
  | restoreUserCreation
  | checkUserCreationStatus
  | createAdminAccount
  | openUserManagement
  | checkAdminAccountStatus
  | enableRemoteDesktop
  | disableRemoteDesktop
  | checkRdpStatus
  | clearTerminal
deriving DecidableEq

/-- A button of the main window: its label text and its click handler. -/
structure Button where
  label : String
  handler : Handler
deriving DecidableEq

/-- Buttons created by create_apps_tab (two per app from
create_app_section, three for PowerEventProvider from
create_app_section_with_3_buttons), in creation order. -/
def appsTabButtons : List Button :=
  [⟨"Install PyAutoClicker",
      .runPowerShellCommand
        "irm https://raw.githubusercontent.com/GoblinRules/PyAutoClicker/main/install.ps1 | iex"⟩,
   ⟨"GitHub", .openUrl "https://github.com/GoblinRules/PyAutoClicker"⟩,
   ⟨"Install IP Python Tray App", .installIppyTray⟩,
   ⟨"GitHub", .openUrl "https://github.com/GoblinRules/ippy-tray-app"⟩,
   ⟨"Download & Install",
      .downloadAndInstallMsi
        "https://github.com/GoblinRules/powereventprovider/releases/download/V1.1/PowerEventProviderSetup.msi"⟩,
   ⟨"GitHub", .openUrl "https://github.com/GoblinRules/powereventprovider"⟩,
   ⟨"View Power Logs", .viewPowerLogs⟩,
   ⟨"Run CTT WinUtil", .runCttWinutil⟩,
   ⟨"GitHub", .openUrl "https://github.com/ChrisTitusTech/winutil"⟩,
   ⟨"Run MASS", .runPowerShellCommand "irm https://get.activated.win | iex"⟩,
   ⟨"GitHub", .openUrl "https://github.com/massgravel/Microsoft-Activation-Scripts"⟩,
   ⟨"Download & Install",
      .downloadAndInstallExe "https://pkgs.tailscale.com/stable/tailscale-setup-latest.exe" "Tailscale"⟩,
   ⟨"Tailscale", .openUrl "https://tailscale.com/"⟩,
   ⟨"Download & Install",
      .downloadAndInstallExe
        "https://a11.gdl.netease.com/MuMu_5.0.2_gw-overseas12_all_1754534682.exe?n=MuMu_5.0.2_lMBe7ZC.exe"
        "MuMu"⟩,
   ⟨"MuMu", .openUrl "https://www.mumuplayer.com/"⟩,
   ⟨"Download & Install",
      .downloadAndInstallExe "https://ninite.com/7zip-chrome-firefox-notepadplusplus/ninite.exe" "Ninite"⟩,
   ⟨"Ninite", .openUrl "https://ninite.com/"⟩]

/-- Buttons created by create_tweaks_tab through
create_single_tweak_with_3_buttons, in creation order (the Power Actions
tweak passes None for its third button, so only two are created). -/
def tweaksTabButtons : List Button :=
  [⟨"Hide Options", .removeShutdownFromStartupSmart⟩,
   ⟨"Restore Defaults", .restoreShutdownOptions⟩,
   ⟨"View Status", .checkGpoStatus⟩,
   ⟨"Set Chrome Default", .setChromeAsDefault⟩,
   ⟨"Restore Defaults", .resetDefaultBrowser⟩,
   ⟨"Check Current Default", .checkCurrentDefaultBrowser⟩,
   ⟨"Configure Power", .configurePowerManagement⟩,
   ⟨"Restore Defaults", .resetPowerManagement⟩,
   ⟨"Check Status", .checkPowerStatus⟩,
   ⟨"Restart", .restartSystem10s⟩,
   ⟨"Shutdown", .shutdownSystem⟩,
   ⟨"Enable Protection", .preventUserCreation⟩,
   ⟨"Restore Defaults", .restoreUserCreation⟩,
   ⟨"Check Status", .checkUserCreationStatus⟩,
   ⟨"Create Account", .createAdminAccount⟩,
   ⟨"Manage Users", .openUserManagement⟩,
   ⟨"Check Status", .checkAdminAccountStatus⟩,
   ⟨"Enable RDP", .enableRemoteDesktop⟩,
   ⟨"Disable RDP", .disableRemoteDesktop⟩,
   ⟨"Check Status", .checkRdpStatus⟩]

/-- The single button created by create_terminal_window. -/
def terminalButtons : List Button :=
  [⟨"Clear Terminal", .clearTerminal⟩]

/-- All buttons of the main InvokeX window. -/
def mainWindowButtons : List Button :=
  appsTabButtons ++ tweaksTabButtons ++ terminalButtons

/-- Whether the body of a handler invokes a shell command, a PowerShell
script, or a downloaded installer on at least one of its paths (it may be
guarded by confirmation dialogs or admin checks).  Each false case is a
handler whose body contains no subprocess call at all: openUrl only calls
webbrowser.open, checkGpoStatus only shows a messagebox, and
clearTerminal only clears the text widget. -/
def Handler.triggersCommand : Handler → Bool
  | .runPowerShellCommand _ => true
  | .installIppyTray => true
  | .downloadAndInstallMsi _ => true
  | .runCttWinutil => true
  | .downloadAndInstallExe _ _ => true
  | .openUrl _ => false
  | .viewPowerLogs => true
  | .removeShutdownFromStartupSmart => true
  | .restoreShutdownOptions => true
  | .checkGpoStatus => false
  | .setChromeAsDefault => true
  | .resetDefaultBrowser => true
  | .checkCurrentDefaultBrowser => true
  | .configurePowerManagement => true
  | .resetPowerManagement => true
  | .checkPowerStatus => true
  | .restartSystem10s => true
  | .shutdownSystem => true
  | .preventUserCreation => true
  | .restoreUserCreation => true
  | .checkUserCreationStatus => true
  | .createAdminAccount => true
  | .openUserManagement => true
  | .checkAdminAccountStatus => true
  | .enableRemoteDesktop => true
  | .disableRemoteDesktop => true
  | .checkRdpStatus => true
  | .clearTerminal => false

/-- Whether the body of a handler calls log_to_terminal (and hence writes
both to the terminal pane and to the log file).  The false cases contain
no log_to_terminal call: openUrl is a bare webbrowser.open lambda,
checkGpoStatus, checkUserCreationStatus, checkAdminAccountStatus and
checkRdpStatus only run their queries and show a messagebox. -/
def Handler.logsOutcome : Handler → Bool
  | .runPowerShellCommand _ => true
  | .installIppyTray => true
  | .downloadAndInstallMsi _ => true
  | .runCttWinutil => true
  | .downloadAndInstallExe _ _ => true
  | .openUrl _ => false
  | .viewPowerLogs => true
  | .removeShutdownFromStartupSmart => true
  | .restoreShutdownOptions => true
  | .checkGpoStatus => false
  | .setChromeAsDefault => true
  | .resetDefaultBrowser => true
  | .checkCurrentDefaultBrowser => true
  | .configurePowerManagement => true
  | .resetPowerManagement => true
  | .checkPowerStatus => true
  | .restartSystem10s => true
  | .shutdownSystem => true
  | .preventUserCreation => true
  | .restoreUserCreation => true
  | .checkUserCreationStatus => false
  | .createAdminAccount => true
  | .openUserManagement => true
  | .checkAdminAccountStatus => false
  | .enableRemoteDesktop => true
  | .disableRemoteDesktop => true
  | .checkRdpStatus => false
  | .clearTerminal => true

/-- Handlers that run no command at all: the URL buttons (webbrowser.open
only), the GPO status dialog, and the terminal clear button. -/
def Handler.commandExempt : Handler → Bool
  | .openUrl _ => true
  | .checkGpoStatus => true
  | .clearTerminal => true
  | _ => false

/-- Handlers that never call log_to_terminal: the URL buttons, the GPO
status dialog, and the three status-check dialogs that only show a
messagebox. -/
def Handler.logExempt : Handler → Bool
  | .openUrl _ => true
  | .checkGpoStatus => true
  | .checkUserCreationStatus => true
  | .checkAdminAccountStatus => true
  | .checkRdpStatus => true
  | _ => false

/-! ## Notebook tabs and tweak command inventory (for the tabbed-window
claim) -/

/-- Titles passed to the two notebook.add calls, in the order the tabs are
created in InvokeX.init. -/
def notebookTabTitles : List String :=
  ["Applications", "System Tweaks"]

/-- A tweak card of the System Tweaks tab: its title and the
system-state-changing shell commands its action and restore handlers
execute (registry and power commands, shutdown commands, account
commands, firewall commands, and the command that opens the Windows
Settings app; the gpupdate/explorer-restart refresh plumbing and the
read-only status queries of the check buttons are not listed). -/
structure TweakSection where
  title : String
  stateCommands : List String
deriving DecidableEq

/-- The six reg add commands of remove_shutdown_from_startup_smart, in
execution order. -/
def gpoAddCommands : List String :=
  ["reg add \"HKCU\\SOFTWARE\\Microsoft\\Windows\\CurrentVersion\\Policies\\Explorer\" /v NoClose /t REG_DWORD /d 1 /f",
   "reg add \"HKCU\\SOFTWARE\\Microsoft\\Windows\\CurrentVersion\\Policies\\Explorer\" /v NoShutdown /t REG_DWORD /d 1 /f",
   "reg add \"HKLM\\SOFTWARE\\Microsoft\\Windows\\CurrentVersion\\Policies\\Explorer\" /v NoShutdown /t REG_DWORD /d 1 /f",
   "reg add \"HKLM\\SOFTWARE\\Microsoft\\Windows\\CurrentVersion\\Policies\\System\" /v DisableShutdown /t REG_DWORD /d 1 /f",
   "reg add \"HKCU\\SOFTWARE\\Microsoft\\Windows\\CurrentVersion\\Policies\\Explorer\" /v NoLogoff /t REG_DWORD /d 1 /f",
   "reg add \"HKLM\\SOFTWARE\\Microsoft\\Windows\\CurrentVersion\\Policies\\Explorer\" /v NoPowerOptions /t REG_DWORD /d 1 /f"]

/-- The six reg delete commands of restore_shutdown_options, in execution
order. -/
def gpoDeleteCommands : List String :=
  ["reg delete \"HKCU\\SOFTWARE\\Microsoft\\Windows\\CurrentVersion\\Policies\\Explorer\" /v NoClose /f",
   "reg delete \"HKCU\\SOFTWARE\\Microsoft\\Windows\\CurrentVersion\\Policies\\Explorer\" /v NoShutdown /f",
   "reg delete \"HKLM\\SOFTWARE\\Microsoft\\Windows\\CurrentVersion\\Policies\\Explorer\" /v NoShutdown /f",
   "reg delete \"HKLM\\SOFTWARE\\Microsoft\\Windows\\CurrentVersion\\Policies\\System\" /v DisableShutdown /f",
   "reg delete \"HKCU\\SOFTWARE\\Microsoft\\Windows\\CurrentVersion\\Policies\\Explorer\" /v NoLogoff /f",
   "reg delete \"HKLM\\SOFTWARE\\Microsoft\\Windows\\CurrentVersion\\Policies\\Explorer\" /v NoPowerOptions /f"]

/-- The powercfg commands of configure_power_management, in execution
order. -/
def powercfgConfigureCommands : List String :=
  ["powercfg /change standby-timeout-ac 0",
   "powercfg /change standby-timeout-dc 0",
   "powercfg /change hibernate-timeout-ac 0",
   "powercfg /change hibernate-timeout-dc 0",
   "powercfg /change monitor-timeout-ac 0",
   "powercfg /change monitor-timeout-dc 0",
   "powercfg /setacvalueindex SCHEME_CURRENT SUB_BUTTONS PBUTTONACTION 0",
   "powercfg /setdcvalueindex SCHEME_CURRENT SUB_BUTTONS PBUTTONACTION 0",
   "powercfg /setacvalueindex SCHEME_CURRENT SUB_BUTTONS SBUTTONACTION 0",
   "powercfg /setdcvalueindex SCHEME_CURRENT SUB_BUTTONS SBUTTONACTION 0",
   "powercfg /setacvalueindex SCHEME_CURRENT SUB_BUTTONS LIDACTION 0",
   "powercfg /setdcvalueindex SCHEME_CURRENT SUB_BUTTONS LIDACTION 0",
   "powercfg /setactive SCHEME_CURRENT"]

/-- The powercfg commands of reset_power_management, in execution order. -/
def powercfgResetCommands : List String :=
  ["powercfg /change standby-timeout-ac 15",
   "powercfg /change standby-timeout-dc 15",
   "powercfg /change hibernate-timeout-ac 0",
   "powercfg /change hibernate-timeout-dc 180",
   "powercfg /change monitor-timeout-ac 10",
   "powercfg /change monitor-timeout-dc 10"]

/-- The seven tweak cards of the System Tweaks tab with the
state-changing commands of their action and restore handlers (Set Chrome
As Default resolves to the second method definition, which only opens the
Settings app; reset_default_browser opens the same page). -/
def tweaksSections : List TweakSection :=
  [⟨"Hide Shutdown Options", gpoAddCommands ++ gpoDeleteCommands⟩,
   ⟨"Set Chrome As Default Browser",
      ["cmd /c start ms-settings:defaultapps", "cmd /c start ms-settings:defaultapps"]⟩,
   ⟨"Power Management Settings", powercfgConfigureCommands ++ powercfgResetCommands⟩,
   ⟨"Power Actions", ["shutdown /r /t 0", "shutdown /s /t 0"]⟩,
   ⟨"Prevent User Account Creation",
      ["reg add \"HKLM\\SOFTWARE\\Microsoft\\Windows\\CurrentVersion\\Policies\\System\" /v \"NoNewUsers\" /t REG_DWORD /d 1 /f",
       "reg delete \"HKLM\\SOFTWARE\\Microsoft\\Windows\\CurrentVersion\\Policies\\System\" /v \"NoNewUsers\" /f"]⟩,
   ⟨"Create Admin Account",
      ["net user Admin",
       "net user Admin <password>",
       "net user Admin <password> /add",
       "net localgroup Administrators Admin /add",
       "net localgroup \"Remote Desktop Users\" Admin /add"]⟩,
   ⟨"Enable Remote Desktop Connections",
      ["reg add \"HKLM\\SYSTEM\\CurrentControlSet\\Control\\Terminal Server\" /v fDenyTSConnections /t REG_DWORD /d 0 /f",
       "netsh advfirewall firewall set rule group=\"Remote Desktop\" new enable=yes",
       "reg add \"HKLM\\SYSTEM\\CurrentControlSet\\Control\\Terminal Server\" /v fDenyTSConnections /t REG_DWORD /d 1 /f",
       "netsh advfirewall firewall set rule group=\"Remote Desktop\" new enable=no"]⟩]

/-- Whether a command string is a registry command or a powercfg command. -/
def isRegOrPowercfg (c : String) : Bool :=
  strBegins c "reg " || strBegins c "powercfg "

/-- Whether a command string is a shutdown or restart command. -/
def isPowerActionCmd (c : String) : Bool :=
  strBegins c "shutdown "

/-- Whether a command string is a net user or net localgroup account
command. -/
def isAccountCmd (c : String) : Bool :=
  strBegins c "net user " || strBegins c "net user" || strBegins c "net localgroup "

/-- Whether a command string is a netsh firewall command. -/
def isFirewallCmd (c : String) : Bool :=
  strBegins c "netsh "

/-- Whether a command string opens a Windows Settings page. -/
def isOpenSettingsCmd (c : String) : Bool :=
  strBegins c "cmd /c start ms-settings:"

/-- The tweak cards whose actions go beyond registry and powercfg
commands. -/
def tweakExceptionTitles : List String :=
  ["Set Chrome As Default Browser", "Power Actions", "Create Admin Account",
   "Enable Remote Desktop Connections"]

/-! ## check_app_installed (app_installer.py lines 1240-1458)

The queries the method makes against the operating system are collected in
a SystemEnv record: file existence (os.path.exists, with expanduser
folded into the path key), the DisplayName values readable under the HKLM
Uninstall registry key, the output of the sc query call for the
PowerEventProvider service, the two glob probes under C:\Tools, and the
three activation queries of the MASS branch.  A none in an Option field
is a query that raised an exception (caught by the surrounding
try/except). -/

/-- Results of every operating-system query check_app_installed can make. -/
structure SystemEnv where
  pathExists : String → Bool
  uninstallDisplayNames : List String
  scQueryPep : Option String
  globToolsTrayPy : Bool
  globToolsTrayFolders : Bool
  slmgrDli : Option (Int × String)
  psActivation : Option (Int × String)
  digitalProductId : Option (List Nat)

/-- Installation directories checked for PowerEventProvider. -/
def pepInstallPaths : List String :=
  ["C:\\Program Files (x86)\\PowerEventProvider",
   "C:\\Program Files\\PowerEventProvider",
   "C:\\PowerEventProvider"]

/-- Primary location checked for the IP Python Tray App. -/
def ippyPrimaryPath : String := "C:\\Tools\\TrayApp\\main.py"

/-- Fallback locations checked for the IP Python Tray App. -/
def ippyFallbackPaths : List String :=
  ["C:\\Tools\\ippy-tray-app",
   "C:\\Tools\\ippy-tray-app\\main.py",
   "C:\\Tools\\ippy_tray_app.py",
   "C:\\Tools\\ip_tray_app.py",
   "C:\\Tools\\TrayApp",
   "~\\AppData\\Local\\ippy-tray-app",
   "~\\AppData\\Roaming\\ippy-tray-app"]

/-- Locations checked for Tailscale. -/
def tailscalePaths : List String :=
  ["C:\\Program Files\\Tailscale\\tailscale.exe",
   "C:\\Program Files (x86)\\Tailscale\\tailscale.exe",
   "~\\AppData\\Local\\Tailscale\\tailscale.exe",
   "C:\\ProgramData\\Tailscale\\tailscale.exe"]

/-- Directory locations checked for MuMu. -/
def mumuDirPaths : List String :=
  ["C:\\Program Files\\Netease\\MuMu Player 12",
   "C:\\Program Files (x86)\\Netease\\MuMu Player 12",
   "C:\\Program Files\\MuMu Player 12",
   "C:\\Program Files (x86)\\MuMu Player 12",
   "~\\AppData\\Local\\MuMu Player 12",
   "C:\\MuMu Player 12"]

/-- Executable locations checked for MuMu. -/
def mumuExePaths : List String :=
  ["C:\\Program Files\\Netease\\MuMu Player 12\\shell\\MuMuPlayer.exe",
   "C:\\Program Files (x86)\\Netease\\MuMu Player 12\\shell\\MuMuPlayer.exe"]

/-- Locations checked for 7-Zip in check_ninite_apps. -/
def zipLocations : List String :=
  ["C:\\Program Files\\7-Zip\\7z.exe",
   "C:\\Program Files (x86)\\7-Zip\\7z.exe"]

/-- Locations checked for Chrome in check_ninite_apps. -/
def chromeLocations : List String :=
  ["C:\\Program Files\\Google\\Chrome\\Application\\chrome.exe",
   "C:\\Program Files (x86)\\Google\\Chrome\\Application\\chrome.exe",
   "~\\AppData\\Local\\Google\\Chrome\\Application\\chrome.exe"]

/-- Locations checked for Firefox in check_ninite_apps. -/
def firefoxLocations : List String :=
  ["C:\\Program Files\\Mozilla Firefox\\firefox.exe",
   "C:\\Program Files (x86)\\Mozilla Firefox\\firefox.exe"]

/-- Locations checked for Notepad++ in check_ninite_apps. -/
def notepadLocations : List String :=
  ["C:\\Program Files\\Notepad++\\notepad++.exe",
   "C:\\Program Files (x86)\\Notepad++\\notepad++.exe"]

/-- The sc query PowerEventProvider secondary verification: true when the
query output mentions RUNNING or STOPPED, false when the call raised. -/
def pepServiceReports (env : SystemEnv) : Bool :=
  match env.scQueryPep with
  | some out => strHas out "RUNNING" || strHas out "STOPPED"
  | none => false

/-- The Tailscale Uninstall-registry scan: a DisplayName containing
tailscale case-insensitively. -/
def tailscaleRegistryMatch (env : SystemEnv) : Bool :=
  env.uninstallDisplayNames.any (fun n => strHas n.toLower "tailscale")

/-- The MuMu Uninstall-registry scan: a DisplayName containing mumu or
netease case-insensitively. -/
def mumuRegistryMatch (env : SystemEnv) : Bool :=
  env.uninstallDisplayNames.any (fun n => strHas n.toLower "mumu" || strHas n.toLower "netease")

/-- The MASS branch: a cascade of three activation checks.  A raised
exception in the slmgr or PowerShell call aborts the whole branch to
False through the enclosing except; a failed DigitalProductId read only
skips that method. -/
def massActivated (env : SystemEnv) : Bool :=
  match env.slmgrDli with
  | none => false
  | some (rc1, out1) =>
    if rc1 = 0 && strHas out1.toLower "license status: licensed" then true
    else
      match env.psActivation with
      | none => false
      | some (rc2, out2) =>
        if rc2 = 0 && strHas out2.toLower "true" then true
        else
          match env.digitalProductId with
          | none => false
          | some bytes => decide (0 < bytes.length)

/-- check_ninite_apps: counts how many of the four bundled applications
are present and returns true only when the count equals four. -/
def checkNiniteApps (env : SystemEnv) : Bool :=
  let c1 : Nat := if zipLocations.any env.pathExists then 1 else 0
  let c2 : Nat := if chromeLocations.any env.pathExists then 1 else 0
  let c3 : Nat := if firefoxLocations.any env.pathExists then 1 else 0
  let c4 : Nat := if notepadLocations.any env.pathExists then 1 else 0
  c1 + c2 + c3 + c4 == 4

/-- Embedding of check_app_installed, branch for branch in source order.
Early returns of True inside a branch become Boolean disjunction; a
branch-level query that raised is a none field of the environment. -/
def checkAppInstalled (env : SystemEnv) (appName : String) : Bool :=
  if appName = "PyAutoClicker" then
    env.pathExists "~\\AppData\\Local\\PyAutoClicker"
  else if appName = "PowerEventProvider" then
    if pepInstallPaths.any env.pathExists then true
    else pepServiceReports env
  else if appName = "IP Python Tray App" then
    if env.pathExists ippyPrimaryPath then true
    else if env.globToolsTrayPy then true
    else if env.globToolsTrayFolders then true
    else ippyFallbackPaths.any env.pathExists
  else if appName = "Tailscale" then
    if tailscaleRegistryMatch env then true
    else tailscalePaths.any env.pathExists
  else if appName = "MuMu" then
    if mumuRegistryMatch env then true
    else mumuDirPaths.any env.pathExists || mumuExePaths.any env.pathExists
  else if appName = "MASS" then
    massActivated env
  else if appName = "Ninite Installer" then
    checkNiniteApps env
  else
    false

/-- The application names for which check_app_installed has a branch. -/
def supportedAppNames : List String :=
  ["PyAutoClicker", "PowerEventProvider", "IP Python Tray App",
   "Tailscale", "MuMu", "MASS", "Ninite Installer"]

/-- The hardcoded file paths of each application branch, as the claim
sentence enumerates them. -/
def claimHardcodedPaths (appName : String) : List String :=
  if appName = "PyAutoClicker" then ["~\\AppData\\Local\\PyAutoClicker"]
  else if appName = "PowerEventProvider" then pepInstallPaths
  else if appName = "IP Python Tray App" then ippyPrimaryPath :: ippyFallbackPaths
  else if appName = "Tailscale" then tailscalePaths
  else if appName = "MuMu" then mumuDirPaths ++ mumuExePaths
  else if appName = "Ninite Installer" then
    zipLocations ++ chromeLocations ++ firefoxLocations ++ notepadLocations
  else []

/-- The matching-registry-key heuristic of each application branch. -/
def claimRegistryMatch (env : SystemEnv) (appName : String) : Bool :=
  if appName = "Tailscale" then tailscaleRegistryMatch env
  else if appName = "MuMu" then mumuRegistryMatch env
  else false

/-- The service-state heuristic of each application branch. -/
def claimServiceReports (env : SystemEnv) (appName : String) : Bool :=
  if appName = "PowerEventProvider" then pepServiceReports env
  else false

/-- The claim as frozen: True exactly when one of the hardcoded file
paths exists, or a matching registry key is found, or a service-state
query reports RUNNING or STOPPED. -/
def claimInstalledAsStated (env : SystemEnv) (appName : String) : Bool :=
  (claimHardcodedPaths appName).any env.pathExists
    || claimRegistryMatch env appName
    || claimServiceReports env appName

/-- The amended claim, worded application by application: for
PyAutoClicker, PowerEventProvider, Tailscale and MuMu exactly the
as-stated heuristic (a hardcoded path exists, or a matching registry key
is found, or the service query reports RUNNING or STOPPED); for the IP
Python Tray App additionally a match of the two hardcoded glob patterns
under C:\Tools; for MASS the license-activation cascade; for the Ninite
Installer all four bundled applications present (not just one path); and
False for every other name. -/
def amendedInstalledSpec (env : SystemEnv) (appName : String) : Bool :=
  if appName = "PyAutoClicker" then
    (claimHardcodedPaths appName).any env.pathExists
  else if appName = "PowerEventProvider" then
    (claimHardcodedPaths appName).any env.pathExists || pepServiceReports env
  else if appName = "IP Python Tray App" then
    (claimHardcodedPaths appName).any env.pathExists
      || env.globToolsTrayPy || env.globToolsTrayFolders
  else if appName = "Tailscale" then
    (claimHardcodedPaths appName).any env.pathExists || tailscaleRegistryMatch env
  else if appName = "MuMu" then
    (claimHardcodedPaths appName).any env.pathExists || mumuRegistryMatch env
  else if appName = "MASS" then
    massActivated env
  else if appName = "Ninite Installer" then
    zipLocations.any env.pathExists && chromeLocations.any env.pathExists
      && firefoxLocations.any env.pathExists && notepadLocations.any env.pathExists
  else
    false

/-- Environment in which only the 7-Zip executable exists and every other
query comes back empty or raises. -/
def envOnlySevenZip : SystemEnv where
  pathExists := fun p => p == "C:\\Program Files\\7-Zip\\7z.exe"
  uninstallDisplayNames := []
  scQueryPep := none
  globToolsTrayPy := false
  globToolsTrayFolders := false
  slmgrDli := none
  psActivation := none
  digitalProductId := none

/-! ## remove_shutdown_from_startup_smart and restore_shutdown_options
(app_installer.py lines 2170-2434)

Each of the six guarded subprocess steps is summarised by an Option Int:
some rc is the returncode of the reg command, none is an exception raised
inside that step's try block (so neither branch of its status check
runs).  A TweakRun records the fixed command sequence issued, the final
success counter, and whether the Success branch of the final status check
is taken. -/

/-- Outcome summary of one tweak handler run. -/
structure TweakRun where
  commands : List String
  successCount : Nat
  reportedSuccess : Bool
deriving DecidableEq

/-- Embedding of remove_shutdown_from_startup_smart: without admin rights
the method returns before issuing any command; otherwise the six reg add
commands run in order, the counter is incremented in each step whose
returncode is 0, and success is reported when the counter reaches 3. -/
def removeShutdownSmartRun (isAdmin : Bool) (r1 r2 r3 r4 r5 r6 : Option Int) : TweakRun :=
  if !isAdmin then ⟨[], 0, false⟩
  else
    let add := fun (acc : Nat) (r : Option Int) => if r = some 0 then acc + 1 else acc
    let c := add (add (add (add (add (add 0 r1) r2) r3) r4) r5) r6
    ⟨gpoAddCommands, c, decide (3 ≤ c)⟩

/-- Embedding of restore_shutdown_options: the six reg delete commands
run in order and the counter is incremented in each step that does not
raise, whether the returncode is 0 or not (the not-found case is counted
as success since the goal is achieved). -/
def restoreShutdownRun (isAdmin : Bool) (r1 r2 r3 r4 r5 r6 : Option Int) : TweakRun :=
  if !isAdmin then ⟨[], 0, false⟩
  else
    let add := fun (acc : Nat) (r : Option Int) => match r with
      | some _ => acc + 1
      | none => acc
    let c := add (add (add (add (add (add 0 r1) r2) r3) r4) r5) r6
    ⟨gpoDeleteCommands, c, decide (3 ≤ c)⟩

/-! ## install_python_system (app_installer.py lines 195-368) -/

/-- Results of the installer subprocess calls install_python_system can
make: the winget run (none when winget raised), whether
verify_and_fix_python_installation succeeds after a winget exit of 0,
whether the python.org download raises, and for each of the three
installer-argument methods its exit code and whether verification
succeeds afterwards. -/
structure PyInstallEnv where
  wingetRun : Option Int
  wingetVerified : Bool
  downloadRaises : Bool
  method1Exit : Int
  method1Verified : Bool
  method2Exit : Int
  method2Verified : Bool
  method3Exit : Int
  method3Verified : Bool

/-- How an install_python_system run ends. -/
inductive PyInstallOutcome where
  | wingetSuccess
  | methodSuccess (idx : Nat)
  | allMethodsFailed
  | errorAbort
deriving DecidableEq

/-- The three installer invocations of the install_methods list, with
their argument vectors and display names, in source order. -/
def installMethods : List (List String × String) :=
  [(["python-installer.exe", "/quiet", "PrependPath=1", "Include_test=0", "SimpleInstall=1"],
    "User installation with PATH"),
   (["python-installer.exe", "/quiet", "InstallAllUsers=1", "PrependPath=1", "Include_test=0"],
    "All users installation"),
   (["python-installer.exe", "/quiet", "InstallAllUsers=0", "Include_test=0"],
    "Basic installation (manual PATH)")]

/-- The download-and-loop part of install_python_system: errorAbort when
the python.org download raises (caught by the outer except), otherwise
the three installer methods are tried in order and the loop breaks at
the first whose installer exits 0 and whose installation verifies. -/
def tryInstallerMethods (env : PyInstallEnv) : PyInstallOutcome :=
  if env.downloadRaises then .errorAbort
  else if env.method1Exit = 0 && env.method1Verified then .methodSuccess 1
  else if env.method2Exit = 0 && env.method2Verified then .methodSuccess 2
  else if env.method3Exit = 0 && env.method3Verified then .methodSuccess 3
  else .allMethodsFailed

/-- Embedding of install_python_system.  The winget path returns early
only when the winget exit code is 0 and verification succeeds; any other
winget outcome (nonzero exit, unverified install, raised exception)
falls through to the download-and-loop part. -/
def installPythonSystem (env : PyInstallEnv) : PyInstallOutcome :=
  match env.wingetRun with
  | some rc =>
    if rc = 0 && env.wingetVerified then .wingetSuccess else tryInstallerMethods env
  | none => tryInstallerMethods env

/-! ## Deferred actions and imported modules (for the concurrency claim) -/

/-- How a deferred or repeated action could be scheduled. -/
inductive ScheduleMechanism where
  | tkAfter (delayMs : Nat)
  | pythonThread
  | processPool
  | osTimerSignal
deriving DecidableEq

/-- One scheduling site in the source: the enclosing method and the
mechanism used there. -/
structure DeferredAction where
  site : String
  mech : ScheduleMechanism
deriving DecidableEq

/-- Every site in app_installer.py and create_icon.py where a callback is
deferred or repeated, in line order (create_icon.py contains none). -/
def deferredActions : List DeferredAction :=
  [⟨"offer_python_installation", .tkAfter 2000⟩,
   ⟨"show_admin_warning", .tkAfter 10000⟩,
   ⟨"create_app_section MASS status check", .tkAfter 100⟩,
   ⟨"create_app_section Ninite status check", .tkAfter 200⟩,
   ⟨"create_app_section app status check", .tkAfter 50⟩,
   ⟨"create_app_section install refresh", .tkAfter 1000⟩,
   ⟨"create_app_section_with_3_buttons app status check", .tkAfter 50⟩,
   ⟨"create_app_section_with_3_buttons install refresh", .tkAfter 1000⟩,
   ⟨"view_power_logs load_logs", .tkAfter 100⟩,
   ⟨"countdown_restart", .tkAfter 1000⟩,
   ⟨"countdown_shutdown", .tkAfter 1000⟩]

/-- The modules imported anywhere in app_installer.py and create_icon.py
(top-level and inline imports combined). -/
def moduleImports : List String :=
  ["tkinter", "tkinter.ttk", "tkinter.messagebox", "tkinter.scrolledtext",
   "tkinter.simpledialog", "subprocess", "webbrowser", "os", "sys", "logging",
   "datetime", "ctypes", "time", "urllib.request", "glob", "winreg",
   "platform", "ssl", "PIL"]

/-- Python modules that provide threads, locks, or other concurrency
primitives. -/
def concurrencyModules : List String :=
  ["threading", "_thread", "multiprocessing", "concurrent.futures",
   "asyncio", "queue", "sched", "signal"]

/-! ## The two definitions of set_chrome_as_default (app_installer.py
lines 3004-3125 and 3238-3277)

The class body of InvokeX binds the method name twice; in Python the
later binding wins, so the resolved attribute is the second function
object.  Both bodies are embedded as trace-producing functions over a
ChromeEnv. -/

/-- An observable effect of a set_chrome_as_default run. -/
inductive ChromeEffect where
  | logLine (message level : String)
  | regCommand (cmd : String)
  | openSettingsCommand (cmd : String)
  | showDialog (title : String)
deriving DecidableEq

/-- Results of the operating-system interactions of the two Chrome
methods: file existence of the candidate Chrome paths, the exit code and
stderr of each registry command (none when the call timed out or
raised), and whether the Settings-app launch raises. -/
structure ChromeEnv where
  pathExists : String → Bool
  regResult : String → Option (Int × String)
  settingsOpenRaises : Bool

/-- The Chrome executable candidate paths both method bodies probe, in
order. -/
def chromeBrowserPaths : List String :=
  ["C:\\Program Files\\Google\\Chrome\\Application\\chrome.exe",
   "C:\\Program Files (x86)\\Google\\Chrome\\Application\\chrome.exe",
   "~\\AppData\\Local\\Google\\Chrome\\Application\\chrome.exe"]

/-- First path of the list that exists, as the for-break loops of both
bodies compute it. -/
def firstExisting (env : ChromeEnv) : List String → Option String
  | [] => none
  | p :: ps => if env.pathExists p then some p else firstExisting env ps

/-- The five registry commands of the first (earlier) method body, in
execution order. -/
def chromeRegCommands : List String :=
  ["reg add 'HKCU\\Software\\Microsoft\\Windows\\Shell\\Associations\\UrlAssociations\\http\\UserChoice' /v ProgId /d ChromeHTML /f",
   "reg add 'HKCU\\Software\\Microsoft\\Windows\\Shell\\Associations\\UrlAssociations\\https\\UserChoice' /v ProgId /d ChromeHTML /f",
   "reg add 'HKCU\\Software\\Classes\\.htm' /ve /d ChromeHTML /f",
   "reg add 'HKCU\\Software\\Classes\\.html' /ve /d ChromeHTML /f",
   "reg add 'HKCU\\Software\\Microsoft\\Windows\\Shell\\Associations\\MimeAssociations\\text/html\\UserChoice' /v ProgId /d ChromeHTML /f"]

/-- Whether a failed registry command is excused by its stderr (the
key-missing phrases the first body treats as normal). -/
def regErrorExcused (err : String) : Bool :=
  strHas err.toLower "does not exist" || strHas err.toLower "not found"
    || strHas err.toLower "path not found"

/-- Success contribution of one registry command in the first body:
returncode 0 counts, a failure with an excused stderr also counts, a
timeout or exception does not. -/
def chromeRegSuccess (env : ChromeEnv) (cmd : String) : Nat :=
  match env.regResult cmd with
  | none => 0
  | some (rc, err) => if rc = 0 then 1 else if regErrorExcused err then 1 else 0

/-- The first (earlier, lines 3004-3125) method body: checks the Chrome
paths, runs the five registry commands, opens the Settings app, and
reports full success when at least 70 percent (3.5, hence 4) of the five
commands succeeded. -/
def setChromeAsDefaultFirstDef (env : ChromeEnv) : List ChromeEffect :=
  .logLine "Attempting to set Google Chrome as default browser..." "info" ::
  (match firstExisting env chromeBrowserPaths with
   | none =>
     [.logLine "Google Chrome not found. Please install Chrome first." "warning",
      .showDialog "Chrome Not Found"]
   | some path =>
     let successCount := (chromeRegCommands.map (chromeRegSuccess env)).sum
     .logLine ("Chrome found at: " ++ path) "success" ::
     (chromeRegCommands.map .regCommand) ++
     (if env.settingsOpenRaises then
        [.logLine "Could not open Windows default programs settings." "warning"]
      else
        [.openSettingsCommand "cmd /c start ms-settings:defaultapps",
         .logLine "Windows default programs settings opened." "info",
         .showDialog "Manual Setup Required"]) ++
     (if 4 ≤ successCount then
        [.logLine "Chrome default browser settings applied successfully!" "success",
         .showDialog "Success"]
      else
        [.logLine "Some commands failed. Please check the output above." "warning",
         .showDialog "Partial Success"]))

/-- The second (later, lines 3238-3277) method body: checks the Chrome
paths and, when Chrome is present, only opens the Windows default-apps
settings page and asks the user to finish manually. -/
def setChromeAsDefaultSecondDef (env : ChromeEnv) : List ChromeEffect :=
  .logLine "Setting Chrome as default browser..." "info" ::
  (match firstExisting env chromeBrowserPaths with
   | none => [.showDialog "Chrome Not Found"]
   | some _ =>
     if env.settingsOpenRaises then
       [.logLine "Opening Windows default programs settings..." "info",
        .logLine "Failed to set Chrome as default: <exception>" "error",
        .showDialog "Error"]
     else
       [.logLine "Opening Windows default programs settings..." "info",
        .openSettingsCommand "cmd /c start ms-settings:defaultapps",
        .showDialog "Manual Configuration Required"])

/-- The class-body bindings of the method name, in the order the class
statement executes them. -/
def chromeMethodBindings : List (String × (ChromeEnv → List ChromeEffect)) :=
  [("set_chrome_as_default", setChromeAsDefaultFirstDef),
   ("set_chrome_as_default", setChromeAsDefaultSecondDef)]

/-- Python attribute resolution over the class body: later bindings of
the same name shadow earlier ones, so lookup takes the last binding. -/
def resolveClassMethod (name : String) : Option (ChromeEnv → List ChromeEffect) :=
  ((chromeMethodBindings.filter (fun d => d.1 == name)).map (fun d => d.2)).getLast?

/-- Number of registry commands in an effect trace. -/
def regCommandCount (trace : List ChromeEffect) : Nat :=
  trace.countP (fun e => match e with
    | .regCommand _ => true
    | _ => false)

/-! ## get_admin_password and create_admin_account (app_installer.py
lines 3692-3963) -/

/-- One user interaction with the password dialog: pressing Create
Account with the two field contents, or cancelling. -/
inductive DialogEvent where
  | submit (password confirm : String)
  | cancel
deriving DecidableEq

/-- validate_and_set_password: the checks run in order (empty, shorter
than 4, mismatch); only a passing submission stores the password and
closes the dialog. -/
def validateAndSetPassword (password confirm : String) : Option String :=
  if password = "" then none
  else if password.length < 4 then none
  else if password ≠ confirm then none
  else some password

/-- get_admin_password as a fold over the user's interactions: a failed
submission leaves the dialog open, a passing one returns the password, a
cancel (or closing the window, the end of the event list) returns none. -/
def getAdminPassword : List DialogEvent → Option String
  | [] => none
  | DialogEvent.cancel :: _ => none
  | DialogEvent.submit p c :: rest =>
    match validateAndSetPassword p c with
    | some pwd => some pwd
    | none => getAdminPassword rest

/-- The account-related shell commands create_admin_account can issue. -/
inductive AccountCmd where
  | queryAdmin
  | resetPassword (pwd : String)
  | createUser (pwd : String)
  | addToGroup (group : String)
deriving DecidableEq

/-- Inputs of one create_admin_account run: admin rights, the exit code
of the net user Admin existence query, the answer to the overwrite
dialog, the password-dialog interactions, and the exit codes of the
reset and create commands. -/
structure AdminEnv where
  isAdmin : Bool
  adminQueryExit : Int
  overwriteAnswer : Bool
  dialogEvents : List DialogEvent
  resetExit : Int
  createExit : Int

/-- Embedding of create_admin_account as the sequence of account commands
it issues.  The existence query always runs first (under admin rights);
the password guard (if not password) stops the run when the dialog was
cancelled or returned an empty string; group membership commands run only
after a successful reset or create. -/
def createAdminAccountCmds (env : AdminEnv) : List AccountCmd :=
  if !env.isAdmin then []
  else
    AccountCmd.queryAdmin ::
    (if env.adminQueryExit = 0 then
       if !env.overwriteAnswer then []
       else
         match getAdminPassword env.dialogEvents with
         | none => []
         | some pwd =>
           if pwd = "" then []
           else
             AccountCmd.resetPassword pwd ::
             (if env.resetExit = 0 then
                [AccountCmd.addToGroup "Administrators",
                 AccountCmd.addToGroup "Remote Desktop Users"]
              else [])
     else
       match getAdminPassword env.dialogEvents with
       | none => []
       | some pwd =>
         if pwd = "" then []
         else
           AccountCmd.createUser pwd ::
           (if env.createExit = 0 then
              [AccountCmd.addToGroup "Administrators",
               AccountCmd.addToGroup "Remote Desktop Users"]
            else []))

/-- Whether an account command changes system state (everything but the
existence query). -/
def isModifyingCmd : AccountCmd → Bool
  | .queryAdmin => false
  | .resetPassword _ => true
  | .createUser _ => true
  | .addToGroup _ => true

/-! ## Counting helpers for the step summaries -/

/-- Number of steps whose returncode is 0. -/
def countExitZero : List (Option Int) → Nat
  | [] => 0
  | r :: rs => (if r = some 0 then 1 else 0) + countExitZero rs

/-- Number of steps that ran without raising. -/
def countRan : List (Option Int) → Nat
  | [] => 0
  | some _ :: rs => 1 + countRan rs
  | none :: rs => countRan rs

/-- Number of steps that raised. -/
def countRaised : List (Option Int) → Nat
  | [] => 0
  | some _ :: rs => countRaised rs
  | none :: rs => 1 + countRaised rs

/-! # Theorems -/

/-- C4: for every message and level, log_to_terminal appends to the
terminal widget one line made of the timestamp, the centered bracketed
level tag and the message, and routes the same message to the file logger
with ERROR to logger.error, WARNING to logger.warning, DEBUG to
logger.debug, and SUCCESS and every other level to logger.info. -/
theorem log_to_terminal_routing (message level timestamp dateStamp : String) :
    (logToTerminal message level timestamp dateStamp).1
      = "[" ++ timestamp ++ "] " ++ ("[" ++ pyCenter 7 level.toUpper ++ "]")
          ++ " " ++ message ++ "\n"
    ∧ ((logToTerminal message level timestamp dateStamp).2).dest = specLevelDest level
    ∧ ∃ ctx, ((logToTerminal message level timestamp dateStamp).2).payload = ctx ++ message := by
  refine ⟨rfl, ?_, ?_⟩
  · unfold logToTerminal specLevelDest
    split_ifs <;> simp_all [FileLogCall.dest]
  · unfold logToTerminal
    split_ifs <;>
      first
        | exact ⟨_, rfl⟩
        | exact ⟨_, (String.append_assoc _ _ _).symm⟩

/-- C1 counterexample: the PyAutoClicker GitHub button of the
Applications tab is a button of the main window whose handler neither
triggers a shell command, PowerShell script or downloaded installer
(webbrowser.open only) nor logs anything to the terminal pane or log
file, so the claim fails as stated. -/
theorem button_claim_counterexample :
    Button.mk "GitHub" (Handler.openUrl "https://github.com/GoblinRules/PyAutoClicker")
        ∈ mainWindowButtons
    ∧ Handler.triggersCommand (.openUrl "https://github.com/GoblinRules/PyAutoClicker") = false
    ∧ Handler.logsOutcome (.openUrl "https://github.com/GoblinRules/PyAutoClicker") = false
    ∧ (mainWindowButtons.all fun b =>
        Handler.triggersCommand b.handler && Handler.logsOutcome b.handler) = false := by
  refine ⟨?_, rfl, rfl, ?_⟩ <;> decide

/-- C1 amended: every button of the main window triggers a shell
command, PowerShell script or downloaded installer, except the website
link buttons (webbrowser.open only), the Hide Shutdown View Status button
(dialog only) and the Clear Terminal button; and every command-triggering
button logs the outcome to the terminal pane and the log file, except the
three status-check buttons (user creation, admin account, RDP) that only
show a dialog. -/
theorem buttons_trigger_and_log :
    (mainWindowButtons.all fun b =>
        Handler.triggersCommand b.handler || Handler.commandExempt b.handler) = true
    ∧ (mainWindowButtons.all fun b =>
        !Handler.triggersCommand b.handler || Handler.logsOutcome b.handler
          || Handler.logExempt b.handler) = true
    ∧ (mainWindowButtons.all fun b =>
        !Handler.commandExempt b.handler || !Handler.triggersCommand b.handler) = true := by
  refine ⟨?_, ?_, ?_⟩ <;> decide

/-- C6 counterexample: the System Tweaks tab contains the Power Actions
tweak, whose action commands are shutdown invocations rather than
registry or powercfg changes, so not every tweak action is a registry or
powercfg change. -/
theorem tweaks_tab_counterexample :
    (tweaksSections.all fun t => t.stateCommands.all isRegOrPowercfg) = false
    ∧ TweakSection.mk "Power Actions" ["shutdown /r /t 0", "shutdown /s /t 0"] ∈ tweaksSections
    ∧ isRegOrPowercfg "shutdown /r /t 0" = false := by
  refine ⟨?_, ?_, ?_⟩ <;> decide

/-- C6 amended: the main window presents exactly the Applications tab and
the System Tweaks tab; every tweak action command is a registry or
powercfg change except in four tweaks: Power Actions issues shutdown
commands, Create Admin Account issues net account commands, the Remote
Desktop tweak additionally issues netsh firewall commands, and Set Chrome
As Default only opens the Windows default-apps settings page. -/
theorem tabs_and_tweak_actions :
    notebookTabTitles = ["Applications", "System Tweaks"]
    ∧ (tweaksSections.all fun t =>
        t.stateCommands.all fun c =>
          isRegOrPowercfg c || isPowerActionCmd c || isAccountCmd c
            || isFirewallCmd c || isOpenSettingsCmd c) = true
    ∧ (tweaksSections.all fun t =>
        tweakExceptionTitles.contains t.title
          || t.stateCommands.all isRegOrPowercfg) = true := by
  refine ⟨rfl, ?_, ?_⟩ <;> decide

/-- C7: every deferred or repeated action in the program is scheduled
through a Tk after timer callback on the GUI event loop, and no module
providing threads, locks or other concurrency primitives is imported
anywhere in the sources. -/
theorem scheduling_only_tk_after :
    (deferredActions.all fun d =>
        match d.mech with
        | .tkAfter _ => true
        | _ => false) = true
    ∧ (moduleImports.all fun m => !concurrencyModules.contains m) = true := by
  refine ⟨?_, ?_⟩ <;> decide

/-- check_ninite_apps counts to four exactly when all four bundled
applications are present. -/
lemma checkNiniteApps_eq_all (env : SystemEnv) :
    checkNiniteApps env
      = (zipLocations.any env.pathExists && chromeLocations.any env.pathExists
          && firefoxLocations.any env.pathExists && notepadLocations.any env.pathExists) := by
  unfold checkNiniteApps
  cases h1 : zipLocations.any env.pathExists <;>
    cases h2 : chromeLocations.any env.pathExists <;>
      cases h3 : firefoxLocations.any env.pathExists <;>
        cases h4 : notepadLocations.any env.pathExists <;> simp

/-- C2 counterexample: in an environment where exactly the 7-Zip
executable exists, one of the hardcoded file paths of the Ninite
Installer branch exists (so the claim as stated predicts True), yet
check_app_installed returns False because that branch requires all four
bundled applications. -/
theorem check_app_installed_counterexample :
    claimInstalledAsStated envOnlySevenZip "Ninite Installer" = true
    ∧ checkAppInstalled envOnlySevenZip "Ninite Installer" = false := by
  refine ⟨?_, ?_⟩ <;> decide

/-- C2 amended: for every environment and application name,
check_app_installed equals the per-application heuristic of the amended
claim (path, registry and service checks; glob patterns for the tray
app; the license cascade for MASS; all four applications for Ninite),
and it returns False for every name outside its hardcoded list; as a
total Lean function of the environment it raises no exception. -/
theorem check_app_installed_characterization :
    (∀ (env : SystemEnv) (appName : String),
        checkAppInstalled env appName = amendedInstalledSpec env appName)
    ∧ (∀ (env : SystemEnv) (appName : String), appName ∉ supportedAppNames →
        checkAppInstalled env appName = false) := by
  constructor
  · intro env appName
    by_cases h1 : appName = "PyAutoClicker"
    · subst h1
      cases hP : env.pathExists "~\\AppData\\Local\\PyAutoClicker" <;>
        simp [checkAppInstalled, amendedInstalledSpec, claimHardcodedPaths, hP]
    · by_cases h2 : appName = "PowerEventProvider"
      · subst h2
        cases hA : pepInstallPaths.any env.pathExists <;>
          cases hS : pepServiceReports env <;>
            simp [checkAppInstalled, amendedInstalledSpec, claimHardcodedPaths, hA, hS]
      · by_cases h3 : appName = "IP Python Tray App"
        · subst h3
          cases hA : env.pathExists ippyPrimaryPath <;>
            cases hB : env.globToolsTrayPy <;>
              cases hC : env.globToolsTrayFolders <;>
                cases hD : ippyFallbackPaths.any env.pathExists <;>
                  simp [checkAppInstalled, amendedInstalledSpec, claimHardcodedPaths,
                    hA, hB, hC, hD]
        · by_cases h4 : appName = "Tailscale"
          · subst h4
            cases hR : tailscaleRegistryMatch env <;>
              cases hP : tailscalePaths.any env.pathExists <;>
                simp [checkAppInstalled, amendedInstalledSpec, claimHardcodedPaths, hR, hP]
          · by_cases h5 : appName = "MuMu"
            · subst h5
              cases hR : mumuRegistryMatch env <;>
                cases hD : mumuDirPaths.any env.pathExists <;>
                  cases hE : mumuExePaths.any env.pathExists <;>
                    simp [checkAppInstalled, amendedInstalledSpec, claimHardcodedPaths,
                      List.any_append, hR, hD, hE]
            · by_cases h6 : appName = "MASS"
              · subst h6
                simp [checkAppInstalled, amendedInstalledSpec]
              · by_cases h7 : appName = "Ninite Installer"
                · subst h7
                  have hN := checkNiniteApps_eq_all env
                  simp [checkAppInstalled, amendedInstalledSpec, hN]
                · simp [checkAppInstalled, amendedInstalledSpec,
                    h1, h2, h3, h4, h5, h6, h7]
  · intro env appName h
    simp only [supportedAppNames, List.mem_cons, List.not_mem_nil, or_false, not_or] at h
    obtain ⟨n1, n2, n3, n4, n5, n6, n7⟩ := h
    simp [checkAppInstalled, n1, n2, n3, n4, n5, n6, n7]

/-- C3: with administrator rights, remove_shutdown_from_startup_smart
issues exactly the fixed sequence of six registry-add shell commands in
order, its success counter equals the number of commands whose exit
status is 0, and it reports overall success exactly when at least three
of the six commands succeeded. -/
theorem hide_shutdown_characterization (r1 r2 r3 r4 r5 r6 : Option Int) :
    (removeShutdownSmartRun true r1 r2 r3 r4 r5 r6).commands = gpoAddCommands
    ∧ gpoAddCommands.length = 6
    ∧ (gpoAddCommands.all fun c => strBegins c "reg add ") = true
    ∧ (removeShutdownSmartRun true r1 r2 r3 r4 r5 r6).successCount
        = countExitZero [r1, r2, r3, r4, r5, r6]
    ∧ ((removeShutdownSmartRun true r1 r2 r3 r4 r5 r6).reportedSuccess = true
        ↔ 3 ≤ countExitZero [r1, r2, r3, r4, r5, r6]) := by
  have hc : (removeShutdownSmartRun true r1 r2 r3 r4 r5 r6).successCount
      = countExitZero [r1, r2, r3, r4, r5, r6] := by
    by_cases h1 : r1 = some 0 <;> by_cases h2 : r2 = some 0 <;>
      by_cases h3 : r3 = some 0 <;> by_cases h4 : r4 = some 0 <;>
        by_cases h5 : r5 = some 0 <;> by_cases h6 : r6 = some 0 <;>
          simp [removeShutdownSmartRun, countExitZero, h1, h2, h3, h4, h5, h6]
  refine ⟨rfl, rfl, by decide, hc, ?_⟩
  have hr : (removeShutdownSmartRun true r1 r2 r3 r4 r5 r6).reportedSuccess
      = decide (3 ≤ (removeShutdownSmartRun true r1 r2 r3 r4 r5 r6).successCount) := rfl
  rw [hr, hc, decide_eq_true_iff]

/-- C9: with administrator rights, restore_shutdown_options issues the
six registry-delete commands, counts every step that does not raise as a
success (whether the reg delete exits 0 or reports the value missing),
so when all six subprocess calls complete the count is six and success is
always reported, and the Failed branch is taken exactly when at least
four of the six steps raise exceptions. -/
theorem restore_shutdown_characterization (r1 r2 r3 r4 r5 r6 : Option Int) :
    (restoreShutdownRun true r1 r2 r3 r4 r5 r6).commands = gpoDeleteCommands
    ∧ (restoreShutdownRun true r1 r2 r3 r4 r5 r6).successCount
        = countRan [r1, r2, r3, r4, r5, r6]
    ∧ (([r1, r2, r3, r4, r5, r6].all Option.isSome) = true →
        (restoreShutdownRun true r1 r2 r3 r4 r5 r6).successCount = 6
          ∧ (restoreShutdownRun true r1 r2 r3 r4 r5 r6).reportedSuccess = true)
    ∧ ((restoreShutdownRun true r1 r2 r3 r4 r5 r6).reportedSuccess = false
        ↔ 4 ≤ countRaised [r1, r2, r3, r4, r5, r6]) := by
  cases r1 <;> cases r2 <;> cases r3 <;> cases r4 <;> cases r5 <;> cases r6 <;>
    simp [restoreShutdownRun, countRan, countRaised]

/-- C9 witness: a run in which the first three deletes exit 0, the next
two report the value missing (exit 1) and the last raises still reports
success with a count of five. -/
theorem restore_shutdown_witness :
    (restoreShutdownRun true (some 0) (some 0) (some 0) (some 1) (some 1) none).commands
        = gpoDeleteCommands
    ∧ (restoreShutdownRun true (some 0) (some 0) (some 0) (some 1) (some 1) none).successCount
        = countRan [some 0, some 0, some 0, some 1, some 1, none]
    ∧ (([some 0, some 0, some 0, some 1, some 1, (none : Option Int)].all Option.isSome) = true →
        (restoreShutdownRun true (some 0) (some 0) (some 0) (some 1) (some 1) none).successCount = 6
          ∧ (restoreShutdownRun true (some 0) (some 0) (some 0) (some 1) (some 1) none).reportedSuccess
              = true)
    ∧ ((restoreShutdownRun true (some 0) (some 0) (some 0) (some 1) (some 1) none).reportedSuccess
          = false
        ↔ 4 ≤ countRaised [some 0, some 0, some 0, some 1, some 1, none]) :=
  restore_shutdown_characterization (some 0) (some 0) (some 0) (some 1) (some 1) none

/-- C5: install_python_system returns early with the winget outcome
exactly when winget exits 0 and the installation verifies; otherwise
(with the installer download succeeding) the three installer-argument
methods are tried in their fixed order, the run stops at the first
method whose installer exits 0 and verifies, and overall failure is
reported exactly when every method fails. -/
theorem install_python_retry (w : Option Int) (wv : Bool) (m1 m2 m3 : Int) (v1 v2 v3 : Bool) :
    installMethods.map (fun m => m.2)
        = ["User installation with PATH", "All users installation",
           "Basic installation (manual PATH)"]
    ∧ (installPythonSystem ⟨w, wv, false, m1, v1, m2, v2, m3, v3⟩ = .wingetSuccess
        ↔ (w = some 0 ∧ wv = true))
    ∧ (installPythonSystem ⟨w, wv, false, m1, v1, m2, v2, m3, v3⟩ = .methodSuccess 1
        ↔ (¬(w = some 0 ∧ wv = true) ∧ (m1 = 0 ∧ v1 = true)))
    ∧ (installPythonSystem ⟨w, wv, false, m1, v1, m2, v2, m3, v3⟩ = .methodSuccess 2
        ↔ (¬(w = some 0 ∧ wv = true) ∧ ¬(m1 = 0 ∧ v1 = true) ∧ (m2 = 0 ∧ v2 = true)))
    ∧ (installPythonSystem ⟨w, wv, false, m1, v1, m2, v2, m3, v3⟩ = .methodSuccess 3
        ↔ (¬(w = some 0 ∧ wv = true) ∧ ¬(m1 = 0 ∧ v1 = true) ∧ ¬(m2 = 0 ∧ v2 = true)
            ∧ (m3 = 0 ∧ v3 = true)))
    ∧ (installPythonSystem ⟨w, wv, false, m1, v1, m2, v2, m3, v3⟩ = .allMethodsFailed
        ↔ (¬(w = some 0 ∧ wv = true) ∧ ¬(m1 = 0 ∧ v1 = true) ∧ ¬(m2 = 0 ∧ v2 = true)
            ∧ ¬(m3 = 0 ∧ v3 = true))) := by
  refine ⟨rfl, ?_, ?_, ?_, ?_, ?_⟩ <;>
    (cases w with
     | none =>
       by_cases hm1 : m1 = 0 <;> cases v1 <;>
         by_cases hm2 : m2 = 0 <;> cases v2 <;>
           by_cases hm3 : m3 = 0 <;> cases v3 <;>
             simp [installPythonSystem, tryInstallerMethods, hm1, hm2, hm3]
     | some rc =>
       by_cases hrc : rc = 0 <;> cases wv <;>
         by_cases hm1 : m1 = 0 <;> cases v1 <;>
           by_cases hm2 : m2 = 0 <;> cases v2 <;>
             by_cases hm3 : m3 = 0 <;> cases v3 <;>
               simp [installPythonSystem, tryInstallerMethods, hrc, hm1, hm2, hm3])

/-- A run that resolves a Chrome method name finds some path of the list
exactly when one of the paths exists. -/
lemma firstExisting_isSome (env : ChromeEnv) (ps : List String) :
    (firstExisting env ps).isSome = ps.any env.pathExists := by
  induction ps with
  | nil => simp [firstExisting]
  | cons p ps ih => cases h : env.pathExists p <;> simp [firstExisting, h, ih]

/-- C8: the class body binds set_chrome_as_default twice and attribute
resolution takes the later binding, so the Set Chrome Default button
invokes the second definition; that definition issues no registry
command for any environment and runs the command opening the Windows
default-apps settings page exactly when a Chrome executable is found at
one of the hardcoded paths (and the launch does not raise); the first,
shadowed definition does issue registry commands. -/
theorem chrome_default_shadowing :
    resolveClassMethod "set_chrome_as_default" = some setChromeAsDefaultSecondDef
    ∧ (∀ env : ChromeEnv, regCommandCount (setChromeAsDefaultSecondDef env) = 0)
    ∧ (∀ env : ChromeEnv,
        (ChromeEffect.openSettingsCommand "cmd /c start ms-settings:defaultapps"
            ∈ setChromeAsDefaultSecondDef env)
          ↔ (chromeBrowserPaths.any env.pathExists = true ∧ env.settingsOpenRaises = false))
    ∧ (∃ env : ChromeEnv, 0 < regCommandCount (setChromeAsDefaultFirstDef env)) := by
  refine ⟨rfl, ?_, ?_, ?_⟩
  · intro env
    cases h : firstExisting env chromeBrowserPaths <;>
      cases hr : env.settingsOpenRaises <;>
        simp [setChromeAsDefaultSecondDef, h, hr, regCommandCount]
  · intro env
    have hs := firstExisting_isSome env chromeBrowserPaths
    cases h : firstExisting env chromeBrowserPaths <;> rw [h] at hs <;>
      cases hr : env.settingsOpenRaises <;>
        simp [setChromeAsDefaultSecondDef, h, hr, ← hs]
  · exact ⟨⟨fun p => p == "C:\\Program Files\\Google\\Chrome\\Application\\chrome.exe",
      fun _ => some (0, ""), false⟩, by decide⟩

/-- A password returned by the dialog passed every validation check: it
is at least four characters long and was submitted with an identical
confirmation. -/
lemma getAdminPassword_valid :
    ∀ (evs : List DialogEvent) (p : String), getAdminPassword evs = some p →
      4 ≤ p.length ∧ DialogEvent.submit p p ∈ evs := by
  intro evs
  induction evs with
  | nil => intro p h; simp [getAdminPassword] at h
  | cons e rest ih =>
    intro p h
    cases e with
    | cancel => simp [getAdminPassword] at h
    | submit pw c =>
      cases hv : validateAndSetPassword pw c with
      | some q =>
        simp only [getAdminPassword, hv] at h
        have hq : q = p := by simpa using h
        subst hq
        unfold validateAndSetPassword at hv
        split_ifs at hv with hEmpty hShort hNe
        have hpw : pw = q := by simpa using hv
        have hc : pw = c := not_ne_iff.mp hNe
        subst hpw
        refine ⟨by omega, ?_⟩
        rw [← hc]
        exact List.mem_cons_self _ _
      | none =>
        simp only [getAdminPassword, hv] at h
        exact (ih p h).imp id (List.mem_cons_of_mem _)

/-- Every command issued by create_admin_account is the existence query
or is tied to a password the dialog validated. -/
lemma createAdminAccountCmds_shape (env : AdminEnv) (c : AccountCmd)
    (hc : c ∈ createAdminAccountCmds env) :
    c = .queryAdmin
      ∨ ∃ q, getAdminPassword env.dialogEvents = some q ∧ q ≠ ""
          ∧ (c = .resetPassword q ∨ c = .createUser q
              ∨ c = .addToGroup "Administrators" ∨ c = .addToGroup "Remote Desktop Users") := by
  unfold createAdminAccountCmds at hc
  cases hA : env.isAdmin <;> simp [hA] at hc
  rcases hc with hc | hc
  · exact Or.inl hc
  · by_cases hq : env.adminQueryExit = 0 <;> simp [hq] at hc
    · cases hov : env.overwriteAnswer <;> simp [hov] at hc
      cases hgp : getAdminPassword env.dialogEvents with
      | none => simp [hgp] at hc
      | some q =>
        by_cases hqe : q = "" <;> simp [hgp, hqe] at hc
        by_cases hre : env.resetExit = 0 <;> simp [hre] at hc
        · rcases hc with hc | hc | hc
          · exact Or.inr ⟨q, rfl, hqe, Or.inl hc⟩
          · exact Or.inr ⟨q, rfl, hqe, Or.inr (Or.inr (Or.inl hc))⟩
          · exact Or.inr ⟨q, rfl, hqe, Or.inr (Or.inr (Or.inr hc))⟩
        · exact Or.inr ⟨q, rfl, hqe, Or.inl hc⟩
    · cases hgp : getAdminPassword env.dialogEvents with
      | none => simp [hgp] at hc
      | some q =>
        by_cases hqe : q = "" <;> simp [hgp, hqe] at hc
        by_cases hcr : env.createExit = 0 <;> simp [hcr] at hc
        · rcases hc with hc | hc | hc
          · exact Or.inr ⟨q, rfl, hqe, Or.inr (Or.inl hc)⟩
          · exact Or.inr ⟨q, rfl, hqe, Or.inr (Or.inr (Or.inl hc))⟩
          · exact Or.inr ⟨q, rfl, hqe, Or.inr (Or.inr (Or.inr hc))⟩
        · exact Or.inr ⟨q, rfl, hqe, Or.inr (Or.inl hc)⟩

/-- C10: get_admin_password returns only None or a password of length at
least four that was entered identically in both fields; consequently any
net user Admin creation or reset command issued by create_admin_account
carries such a validated password, and when the dialog is cancelled (or
closed) the run performs no account-modifying command at all, only the
existence query. -/
theorem admin_account_password_guard :
    (∀ (evs : List DialogEvent) (p : String), getAdminPassword evs = some p →
        4 ≤ p.length ∧ DialogEvent.submit p p ∈ evs)
    ∧ (∀ (env : AdminEnv) (pwd : String),
        (AccountCmd.resetPassword pwd ∈ createAdminAccountCmds env
          ∨ AccountCmd.createUser pwd ∈ createAdminAccountCmds env) →
        4 ≤ pwd.length ∧ getAdminPassword env.dialogEvents = some pwd)
    ∧ (∀ env : AdminEnv, getAdminPassword env.dialogEvents = none →
        ∀ c ∈ createAdminAccountCmds env, c = AccountCmd.queryAdmin) := by
  refine ⟨getAdminPassword_valid, ?_, ?_⟩
  · intro env pwd hmem
    rcases hmem with hm | hm
    · rcases createAdminAccountCmds_shape env _ hm with h | ⟨q, hgp, hne, hforms⟩
      · simp at h
      · have hpq : pwd = q := by rcases hforms with h | h | h | h <;> simp_all
        subst hpq
        exact ⟨(getAdminPassword_valid _ pwd hgp).1, hgp⟩
    · rcases createAdminAccountCmds_shape env _ hm with h | ⟨q, hgp, hne, hforms⟩
      · simp at h
      · have hpq : pwd = q := by rcases hforms with h | h | h | h <;> simp_all
        subst hpq
        exact ⟨(getAdminPassword_valid _ pwd hgp).1, hgp⟩
  · intro env hnone c hc
    rcases createAdminAccountCmds_shape env c hc with h | ⟨q, hgp, _, _⟩
    · exact h
    · rw [hnone] at hgp
      exact absurd hgp (by simp)

/-- C10 witness: a dialog run that submits abcd twice yields a validated
password, and a run of create_admin_account on a concrete environment
with that dialog issues its create command with that password. -/
theorem admin_account_password_guard_witness :
    (4 ≤ ("abcd" : String).length
      ∧ DialogEvent.submit "abcd" "abcd" ∈ [DialogEvent.submit "abcd" "abcd"])
    ∧ (4 ≤ ("abcd" : String).length
      ∧ getAdminPassword [DialogEvent.submit "abcd" "abcd"] = some "abcd") :=
  ⟨admin_account_password_guard.1 [DialogEvent.submit "abcd" "abcd"] "abcd" (by decide),
   admin_account_password_guard.2.1
     ⟨true, 1, false, [DialogEvent.submit "abcd" "abcd"], 0, 0⟩ "abcd"
     (Or.inr (by decide))⟩

/-- C2 amended witness: the characterization applied to the concrete
7-Zip-only environment and a name outside the hardcoded list. -/
theorem check_app_installed_characterization_witness :
    checkAppInstalled envOnlySevenZip "CTT WinUtil"
        = amendedInstalledSpec envOnlySevenZip "CTT WinUtil"
    ∧ checkAppInstalled envOnlySevenZip "CTT WinUtil" = false :=
  ⟨check_app_installed_characterization.1 envOnlySevenZip "CTT WinUtil",
   check_app_installed_characterization.2 envOnlySevenZip "CTT WinUtil" (by decide)⟩

end InvokeX
